import Mathlib

/-!
Shallow embedding of `crates/noirc_evaluator/src/ssa_refactor.rs`: the SSA
compilation orchestration (`optimize_into_acir`) and the circuit assembly
(`create_circuit`).  The bodies of the individual SSA passes, of
`ssa_gen::generate_ssa`, of `Ssa::to_brillig` and of `Ssa::into_acir` live in
sibling modules that are not part of the orchestration file, so the pipeline is
embedded parametrically over those operations: a `SsaPipeline` record supplies
one function per operation, in a monad `m` so that the order in which the
orchestration invokes them can be observed by a tracing instantiation.
The collaborator types (`Witness`, `PublicInputs`, `Circuit`, `DebugInfo` from
`acvm`/`noirc_errors`, and `Abi` from `noirc_abi`) are embedded with the fields
`create_circuit` actually touches.
-/

/-- Runtime kind of an SSA function (`ir::function::RuntimeType`):
`Acir` is circuit-constrained, `Brillig` is unconstrained. -/
inductive RuntimeType where
  | Acir
  | Brillig
deriving DecidableEq

/-- Return-distinctness flag carried by the monomorphized program
(`noirc_abi::AbiDistinctness`); `optimize_into_acir` only forwards it. -/
inductive AbiDistinctness where
  | Distinct
  | DuplicationAllowed
deriving DecidableEq

/-- Visibility of an ABI parameter (`noirc_abi::AbiVisibility`). -/
inductive AbiVisibility where
  | Public
  | Private
deriving DecidableEq, BEq

/-- One parameter of the main function's signature.  `width` is the number of
field elements (hence witnesses) the parameter occupies; the concrete type
structure of `noirc_abi` is irrelevant to the orchestration. -/
structure AbiParameter where
  name : String
  visibility : AbiVisibility
  width : Nat
deriving DecidableEq

/-- The main function's signature as consumed by `gen_abi`. -/
abbrev FunctionSignature := List AbiParameter

/-- The monomorphized input program
(`noirc_frontend::monomorphization::ast::Program`), restricted to the fields
the orchestration reads: the main function's signature, the distinctness flag,
and an opaque body consumed by SSA generation. -/
structure Program (Body : Type) where
  body : Body
  main_function_signature : FunctionSignature
  return_distinctness : AbiDistinctness
deriving DecidableEq

/-- A witness index (`acvm::native_types::Witness`, a `u32` newtype). -/
abbrev Witness := Nat

/-- Result record of ACIR generation (`acir_gen::GeneratedAcir`), restricted
to the fields destructured by `create_circuit`; the opcode and location-table
types are opaque to the orchestration. -/
structure GeneratedAcir (Opcode LocTable : Type) where
  current_witness_index : Nat
  opcodes : List Opcode
  return_witnesses : List Witness
  locations : LocTable
deriving DecidableEq

/-- A set of public input witnesses (`acvm::acir::circuit::PublicInputs`,
a newtype over `BTreeSet<Witness>`). -/
structure PublicInputs where
  witnesses : Finset Witness
deriving DecidableEq

/-- The assembled circuit record (`acvm::acir::circuit::Circuit`), restricted
to the fields `create_circuit` populates. -/
structure Circuit (Opcode : Type) where
  current_witness_index : Nat
  opcodes : List Opcode
  private_parameters : Finset Witness
  public_parameters : PublicInputs
  return_values : PublicInputs
deriving DecidableEq

/-- The set of all public inputs of a circuit, as exposed by `acvm`'s
`Circuit::public_inputs`: union of the public parameters and the return
values. -/
def Circuit.public_inputs {Opcode : Type} (c : Circuit Opcode) : Finset Witness :=
  c.public_parameters.witnesses ∪ c.return_values.witnesses

/-- Debug info (`noirc_errors::debug_info::DebugInfo`): a wrapper around the
opcode-position → source-location table. -/
structure DebugInfo (LocTable : Type) where
  locations : LocTable
deriving DecidableEq

/-- Constructor `DebugInfo::new`. -/
def DebugInfo.new {LocTable : Type} (locations : LocTable) : DebugInfo LocTable :=
  ⟨locations⟩

/-- The ABI object (`noirc_abi::Abi`), restricted to the fields
`create_circuit` reads: the parameter list, the per-parameter witness
assignment (`param_witnesses`, keyed by parameter name; the visibility is kept
alongside so that `public_abi` can filter), and the return witnesses. -/
structure Abi where
  parameters : List AbiParameter
  param_witnesses : List (String × AbiVisibility × List Witness)
  return_witnesses : List Witness
deriving DecidableEq

/-- Modelled from the spec: `abi_gen::gen_abi`'s witness assignment is not in
the orchestration file; per §4.11 the ACIR generator allocates parameter
witnesses "up front, in declaration order", so each parameter receives a
contiguous run of indices in declaration order (the start index is irrelevant
to every claim and is taken to be 0). -/
def allocate_param_witnesses : Nat → FunctionSignature → List (String × AbiVisibility × List Witness)
  | _, [] => []
  | next, p :: ps =>
      (p.name, p.visibility, (List.range p.width).map (· + next)) ::
        allocate_param_witnesses (next + p.width) ps

/-- Modelled from the spec: `abi_gen::gen_abi` (module `abi_gen`, not in the
orchestration file) "derives the parameter/return ABI from the original
function signature and the return-witness list" (§4.12). -/
def gen_abi (func_sig : FunctionSignature) (return_witnesses : List Witness) : Abi :=
  { parameters := func_sig
    param_witnesses := allocate_param_witnesses 0 func_sig
    return_witnesses := return_witnesses }

/-- Modelled from the spec: `noirc_abi`'s `Abi::public_abi` restricts the ABI
to its declared-public parameters ("computes the public parameter witness set
from the ABI's declared-public parameters", §4.12). -/
def Abi.public_abi (abi : Abi) : Abi :=
  { parameters := abi.parameters.filter (fun p => p.visibility == AbiVisibility.Public)
    param_witnesses := abi.param_witnesses.filter (fun e => e.2.1 == AbiVisibility.Public)
    return_witnesses := abi.return_witnesses }

/-- The expression `abi.param_witnesses.values().flatten().copied().collect()`
of `create_circuit`: the union of all witness indices assigned to parameters,
as an unordered set (`BTreeSet`). -/
def flatten_witnesses (pw : List (String × AbiVisibility × List Witness)) : Finset Witness :=
  (pw.map (fun e => e.2.2)).flatten.toFinset

/-- The operations the orchestration composes, one field per function whose
body lives outside `ssa_refactor.rs`.  `show_ssa` is the `Display` rendering
used by `Ssa::print`; `emit_line` is the `println!` channel. -/
structure SsaPipeline (Body Ssa Brillig Opcode LocTable Err : Type) (m : Type → Type) where
  generate_ssa : Program Body → m Ssa
  show_ssa : Ssa → String
  emit_line : String → m Unit
  main_runtime : Ssa → RuntimeType
  defunctionalize : Ssa → m Ssa
  to_brillig : Ssa → Bool → m Brillig
  inline_functions : Ssa → m Ssa
  unroll_loops : Ssa → m Ssa
  simplify_cfg : Ssa → m Ssa
  flatten_cfg : Ssa → m Ssa
  mem2reg : Ssa → m Ssa
  fold_constants : Ssa → m Ssa
  dead_instruction_elimination : Ssa → m Ssa
  into_acir : Ssa → Brillig → AbiDistinctness → Bool → m (Except Err (GeneratedAcir Opcode LocTable))

/-- Embedding of `impl Ssa { fn print }` (`ssa_refactor.rs` lines 107–113):
when the flag is set, print the message and the module dump; always return
the module unchanged. -/
def SsaPipeline.print {Body Ssa Brillig Opcode LocTable Err : Type} {m : Type → Type} [Monad m]
    (F : SsaPipeline Body Ssa Brillig Opcode LocTable Err m)
    (ssa : Ssa) (print_ssa_passes : Bool) (msg : String) : m Ssa := do
  if print_ssa_passes then
    F.emit_line (msg ++ "\n" ++ F.show_ssa ssa)
  pure ssa

/-- Embedding of `optimize_into_acir` (`ssa_refactor.rs` lines 36–67):
generate SSA, defunctionalize, lower to Brillig, run the seven optimization
passes when the main function's runtime is `Acir`, then lower to ACIR. -/
def optimize_into_acir {Body Ssa Brillig Opcode LocTable Err : Type} {m : Type → Type} [Monad m]
    (F : SsaPipeline Body Ssa Brillig Opcode LocTable Err m)
    (program : Program Body)
    (allow_log_ops print_ssa_passes print_brillig_trace : Bool) :
    m (Except Err (GeneratedAcir Opcode LocTable)) := do
  let abi_distinctness := program.return_distinctness
  let ssa ← F.generate_ssa program
  let ssa ← F.print ssa print_ssa_passes "Initial SSA:"
  let ssa ← F.defunctionalize ssa
  let ssa ← F.print ssa print_ssa_passes "After Defunctionalization:"
  let brillig ← F.to_brillig ssa print_brillig_trace
  let ssa ←
    match F.main_runtime ssa with
    | RuntimeType.Acir => do
        let ssa ← F.inline_functions ssa
        let ssa ← F.print ssa print_ssa_passes "After Inlining:"
        let ssa ← F.unroll_loops ssa
        let ssa ← F.print ssa print_ssa_passes "After Unrolling:"
        let ssa ← F.simplify_cfg ssa
        let ssa ← F.print ssa print_ssa_passes "After Simplifying:"
        let ssa ← F.flatten_cfg ssa
        let ssa ← F.print ssa print_ssa_passes "After Flattening:"
        let ssa ← F.mem2reg ssa
        let ssa ← F.print ssa print_ssa_passes "After Mem2Reg:"
        let ssa ← F.fold_constants ssa
        let ssa ← F.print ssa print_ssa_passes "After Constant Folding:"
        let ssa ← F.dead_instruction_elimination ssa
        F.print ssa print_ssa_passes "After Dead Instruction Elimination:"
    | RuntimeType.Brillig => pure ssa
  F.into_acir ssa brillig abi_distinctness allow_log_ops

/-- Embedding of `create_circuit` (`ssa_refactor.rs` lines 73–105), over the
pure (`Id`) instantiation of the pipeline: capture the main function's
signature, run `optimize_into_acir` (propagating its error via `?`), derive
the ABI, partition the parameter witnesses into public and private sets, and
assemble the circuit record. -/
def create_circuit {Body Ssa Brillig Opcode LocTable Err : Type}
    (F : SsaPipeline Body Ssa Brillig Opcode LocTable Err Id)
    (program : Program Body)
    (enable_ssa_logging enable_brillig_logging show_output : Bool) :
    Except Err (Circuit Opcode × DebugInfo LocTable × Abi) :=
  let func_sig := program.main_function_signature
  match optimize_into_acir F program show_output enable_ssa_logging enable_brillig_logging with
  | Except.error e => Except.error e
  | Except.ok g =>
    let abi := gen_abi func_sig g.return_witnesses
    let public_abi := abi.public_abi
    let public_parameters : PublicInputs := ⟨flatten_witnesses public_abi.param_witnesses⟩
    let all_parameters : Finset Witness := flatten_witnesses abi.param_witnesses
    let private_parameters : Finset Witness := all_parameters \ public_parameters.witnesses
    let return_values : PublicInputs := ⟨g.return_witnesses.toFinset⟩
    Except.ok
      ({ current_witness_index := g.current_witness_index
         opcodes := g.opcodes
         private_parameters := private_parameters
         public_parameters := public_parameters
         return_values := return_values },
       DebugInfo.new g.locations,
       abi)

/-- The seven optimization passes of the `RuntimeType::Acir` branch of
`optimize_into_acir`, named after the methods they invoke. -/
inductive Pass where
  | inline_functions
  | unroll_loops
  | simplify_cfg
  | flatten_cfg
  | mem2reg
  | fold_constants
  | dead_instruction_elimination
deriving DecidableEq

/-- The order in which the `RuntimeType::Acir` branch chains the passes. -/
def acir_pass_order : List Pass :=
  [Pass.inline_functions, Pass.unroll_loops, Pass.simplify_cfg, Pass.flatten_cfg,
   Pass.mem2reg, Pass.fold_constants, Pass.dead_instruction_elimination]

/-- Observable invocations of the pipeline's stage functions. -/
inductive Event where
  | generate_ssa
  | defunctionalize
  | to_brillig
  | pass (p : Pass)
  | into_acir
deriving DecidableEq

/-- State monad recording the sequence of stage invocations. -/
abbrev TraceM := StateM (List Event)

/-- Append one event to the trace. -/
def logEvent (e : Event) : TraceM Unit :=
  modify (fun evs => evs ++ [e])

/-- Tracing instantiation of the pipeline: every stage function records its
own invocation and does nothing else; the main function's runtime kind is the
parameter `rt`.  Used to observe which stages `optimize_into_acir` invokes,
and in which order. -/
def traced_pipeline (rt : RuntimeType) : SsaPipeline Unit Unit Unit Unit Unit Unit TraceM where
  generate_ssa _ := do logEvent Event.generate_ssa; pure ()
  show_ssa _ := ""
  emit_line _ := pure ()
  main_runtime _ := rt
  defunctionalize _ := do logEvent Event.defunctionalize; pure ()
  to_brillig _ _ := do logEvent Event.to_brillig; pure ()
  inline_functions _ := do logEvent (Event.pass Pass.inline_functions); pure ()
  unroll_loops _ := do logEvent (Event.pass Pass.unroll_loops); pure ()
  simplify_cfg _ := do logEvent (Event.pass Pass.simplify_cfg); pure ()
  flatten_cfg _ := do logEvent (Event.pass Pass.flatten_cfg); pure ()
  mem2reg _ := do logEvent (Event.pass Pass.mem2reg); pure ()
  fold_constants _ := do logEvent (Event.pass Pass.fold_constants); pure ()
  dead_instruction_elimination _ := do logEvent (Event.pass Pass.dead_instruction_elimination); pure ()
  into_acir _ _ _ _ := do
    logEvent Event.into_acir
    pure (Except.ok { current_witness_index := 0, opcodes := [], return_witnesses := [], locations := () })

/-- The sequence of stage invocations `optimize_into_acir` performs when the
main function's runtime kind is `rt`. -/
def pipeline_events (rt : RuntimeType) (program : Program Unit)
    (allow_log_ops print_ssa_passes print_brillig_trace : Bool) : List Event :=
  ((optimize_into_acir (traced_pipeline rt) program
      allow_log_ops print_ssa_passes print_brillig_trace).run []).2

/-- The optimization passes among a list of events, in order. -/
def passes_of (evs : List Event) : List Pass :=
  evs.filterMap (fun e =>
    match e with
    | Event.pass p => some p
    | _ => none)

/-- Pure (`Id`) instantiation of the pipeline over trivial SSA data: the main
function's runtime kind is the parameter `rt` and ACIR lowering returns the
fixed `result`; used to exercise the theorems on concrete inputs. -/
def concrete_pipeline (rt : RuntimeType) (result : Except Unit (GeneratedAcir Unit Unit)) :
    SsaPipeline Unit Unit Unit Unit Unit Unit Id where
  generate_ssa _ := pure ()
  show_ssa _ := ""
  emit_line _ := pure ()
  main_runtime _ := rt
  defunctionalize _ := pure ()
  to_brillig _ _ := pure ()
  inline_functions _ := pure ()
  unroll_loops _ := pure ()
  simplify_cfg _ := pure ()
  flatten_cfg _ := pure ()
  mem2reg _ := pure ()
  fold_constants _ := pure ()
  dead_instruction_elimination _ := pure ()
  into_acir _ _ _ _ := pure result

/-- A sample signature: one public one-witness parameter and one private
two-witness parameter. -/
def sample_sig : FunctionSignature :=
  [{ name := "x", visibility := AbiVisibility.Public, width := 1 },
   { name := "y", visibility := AbiVisibility.Private, width := 2 }]

/-- A sample input program over the sample signature. -/
def sample_program : Program Unit :=
  { body := ()
    main_function_signature := sample_sig
    return_distinctness := AbiDistinctness.Distinct }

/-- A sample result of ACIR generation (note the duplicated return
witness 3). -/
def sample_acir : GeneratedAcir Unit Unit :=
  { current_witness_index := 7
    opcodes := [(), ()]
    return_witnesses := [3, 4, 3]
    locations := () }

/-- Concrete pipeline whose ACIR lowering succeeds with `sample_acir`. -/
def ok_pipeline : SsaPipeline Unit Unit Unit Unit Unit Unit Id :=
  concrete_pipeline RuntimeType.Acir (Except.ok sample_acir)

/-- Concrete pipeline whose ACIR lowering fails. -/
def fail_pipeline : SsaPipeline Unit Unit Unit Unit Unit Unit Id :=
  concrete_pipeline RuntimeType.Acir (Except.error ())

/-- The circuit `create_circuit` assembles from `sample_program` and
`sample_acir`: parameter witnesses 0 (public) and 1, 2 (private), return
witnesses 3 and 4. -/
def sample_circuit : Circuit Unit :=
  { current_witness_index := 7
    opcodes := [(), ()]
    private_parameters := {1, 2}
    public_parameters := ⟨{0}⟩
    return_values := ⟨{4, 3}⟩ }

/-- The ABI `gen_abi` derives from `sample_sig` and the sample return
witnesses. -/
def sample_abi : Abi :=
  { parameters := sample_sig
    param_witnesses := [("x", AbiVisibility.Public, [0]), ("y", AbiVisibility.Private, [1, 2])]
    return_witnesses := [3, 4, 3] }

/-- Full invocation trace of `optimize_into_acir`: after SSA generation and
defunctionalization, Brillig lowering runs, then the seven passes exactly when
the runtime kind is `Acir`, then ACIR lowering. -/
theorem pipeline_events_eq (rt : RuntimeType) (program : Program Unit)
    (a b c : Bool) :
    pipeline_events rt program a b c =
      [Event.generate_ssa, Event.defunctionalize, Event.to_brillig] ++
        (match rt with
         | RuntimeType.Acir => acir_pass_order.map Event.pass
         | RuntimeType.Brillig => []) ++ [Event.into_acir] := by
  cases rt <;> cases b <;> rfl

/-- C1: for every input program, the seven optimization passes run if and
only if the entry function's runtime kind is circuit-constrained (`Acir`);
when the entry function is unconstrained (`Brillig`), the SSA produced by
generation and defunctionalization is handed straight to ACIR lowering with
no optimization pass applied. -/
theorem optimization_iff_acir_runtime (rt : RuntimeType) (program : Program Unit)
    (a b c : Bool) :
    (passes_of (pipeline_events rt program a b c) =
      match rt with
      | RuntimeType.Acir => acir_pass_order
      | RuntimeType.Brillig => []) ∧
    pipeline_events RuntimeType.Brillig program a b c =
      [Event.generate_ssa, Event.defunctionalize, Event.to_brillig, Event.into_acir] := by
  constructor
  · rw [pipeline_events_eq]
    cases rt <;> rfl
  · rw [pipeline_events_eq]
    rfl

/-- C2: for a circuit-constrained entry function, the passes are applied in
the fixed order Inliner, Loop Unroller, CFG Simplifier, CFG Flattener,
Mem2Reg, Constant Folder, Dead Instruction Eliminator, each exactly once and
with no other pass interleaved. -/
theorem acir_pass_sequence (program : Program Unit) (a b c : Bool) :
    passes_of (pipeline_events RuntimeType.Acir program a b c) =
      [Pass.inline_functions, Pass.unroll_loops, Pass.simplify_cfg, Pass.flatten_cfg,
       Pass.mem2reg, Pass.fold_constants, Pass.dead_instruction_elimination] ∧
    ∀ q : Pass, (passes_of (pipeline_events RuntimeType.Acir program a b c)).count q = 1 := by
  rw [pipeline_events_eq]
  exact ⟨rfl, fun q => by cases q <;> rfl⟩

/-- C3: Brillig lowering is invoked exactly once, after SSA generation and
defunctionalization and before any optimization pass and before ACIR
lowering, regardless of the entry function's runtime kind. -/
theorem brillig_once_before_optimization (rt : RuntimeType) (program : Program Unit)
    (a b c : Bool) :
    (pipeline_events rt program a b c).count Event.to_brillig = 1 ∧
    pipeline_events rt program a b c =
      [Event.generate_ssa, Event.defunctionalize, Event.to_brillig] ++
        (passes_of (pipeline_events rt program a b c)).map Event.pass ++
        [Event.into_acir] := by
  rw [pipeline_events_eq]
  cases rt <;> exact ⟨rfl, rfl⟩


/-- Normal form of `optimize_into_acir` in the pure (`Id`) instantiation:
`Ssa::print` returns the module unchanged, so the result is ACIR lowering
applied to the (conditionally optimized) defunctionalized SSA together with
the Brillig lowering of the pre-optimization SSA. -/
theorem optimize_into_acir_id {Body Ssa Brillig Opcode LocTable Err : Type}
    (F : SsaPipeline Body Ssa Brillig Opcode LocTable Err Id)
    (program : Program Body) (a b c : Bool) :
    optimize_into_acir F program a b c =
      (fun ssa =>
        match F.main_runtime ssa with
        | RuntimeType.Acir =>
            F.into_acir
              (F.dead_instruction_elimination (F.fold_constants (F.mem2reg (F.flatten_cfg
                (F.simplify_cfg (F.unroll_loops (F.inline_functions ssa)))))))
              (F.to_brillig ssa c) program.return_distinctness a
        | RuntimeType.Brillig =>
            F.into_acir ssa (F.to_brillig ssa c) program.return_distinctness a)
        (F.defunctionalize (F.generate_ssa program)) := by
  cases b <;> rfl

/-- Witness sets shrink under filtering of the parameter list. -/
theorem flatten_witnesses_filter_subset (q : String × AbiVisibility × List Witness → Bool)
    (l : List (String × AbiVisibility × List Witness)) :
    flatten_witnesses (l.filter q) ⊆ flatten_witnesses l := by
  intro x hx
  simp only [flatten_witnesses, List.mem_toFinset, List.mem_flatten, List.mem_map] at hx ⊢
  obtain ⟨ws, ⟨e, he, rfl⟩, hx⟩ := hx
  exact ⟨e.2.2, ⟨e, (List.mem_filter.mp he).1, rfl⟩, hx⟩

/-- Inversion of a successful `create_circuit`: it names the generated ACIR
and spells out every component of the assembled result. -/
theorem create_circuit_ok {Body Ssa Brillig Opcode LocTable Err : Type}
    (F : SsaPipeline Body Ssa Brillig Opcode LocTable Err Id)
    (program : Program Body) (a b c : Bool)
    (circ : Circuit Opcode) (di : DebugInfo LocTable) (abi : Abi)
    (h : create_circuit F program a b c = Except.ok (circ, di, abi)) :
    ∃ g : GeneratedAcir Opcode LocTable,
      optimize_into_acir F program c a b = Except.ok g ∧
      abi = gen_abi program.main_function_signature g.return_witnesses ∧
      circ = { current_witness_index := g.current_witness_index
               opcodes := g.opcodes
               private_parameters :=
                 flatten_witnesses abi.param_witnesses \
                   flatten_witnesses abi.public_abi.param_witnesses
               public_parameters := ⟨flatten_witnesses abi.public_abi.param_witnesses⟩
               return_values := ⟨g.return_witnesses.toFinset⟩ } ∧
      di = DebugInfo.new g.locations := by
  unfold create_circuit at h
  cases hopt : (optimize_into_acir F program c a b : Except Err (GeneratedAcir Opcode LocTable)) with
  | error e =>
    rw [hopt] at h
    exact absurd h (by simp)
  | ok g =>
    rw [hopt] at h
    simp only [Except.ok.injEq, Prod.mk.injEq] at h
    obtain ⟨hcirc, hdi, habi⟩ := h
    subst habi
    exact ⟨g, rfl, rfl, hcirc.symm, hdi.symm⟩

/-- C4: for every successfully compiled circuit, the public and private
parameter witness sets are disjoint, their union is the full set of parameter
witnesses, and the private set is the set difference of all parameter
witnesses minus the public ones. -/
theorem witness_partition {Body Ssa Brillig Opcode LocTable Err : Type}
    (F : SsaPipeline Body Ssa Brillig Opcode LocTable Err Id)
    (program : Program Body) (a b c : Bool)
    (circ : Circuit Opcode) (di : DebugInfo LocTable) (abi : Abi)
    (h : create_circuit F program a b c = Except.ok (circ, di, abi)) :
    circ.public_parameters.witnesses ∩ circ.private_parameters = ∅ ∧
    circ.public_parameters.witnesses ∪ circ.private_parameters =
      flatten_witnesses abi.param_witnesses ∧
    circ.private_parameters =
      flatten_witnesses abi.param_witnesses \ circ.public_parameters.witnesses := by
  obtain ⟨g, -, -, hcirc, -⟩ := create_circuit_ok F program a b c circ di abi h
  subst hcirc
  refine ⟨Finset.inter_sdiff_self _ _, ?_, rfl⟩
  exact Finset.union_sdiff_of_subset (flatten_witnesses_filter_subset _ _)

/-- Concrete run of `witness_partition`: compiling `sample_program` through
`ok_pipeline` yields `sample_circuit`, whose public set {0} and private set
{1, 2} are disjoint and together exhaust the parameter witnesses {0, 1, 2}. -/
theorem witness_partition_concrete :
    create_circuit ok_pipeline sample_program true false true =
        Except.ok (sample_circuit, DebugInfo.new (), sample_abi) ∧
      (sample_circuit.public_parameters.witnesses ∩ sample_circuit.private_parameters = ∅ ∧
       sample_circuit.public_parameters.witnesses ∪ sample_circuit.private_parameters =
         flatten_witnesses sample_abi.param_witnesses ∧
       sample_circuit.private_parameters =
         flatten_witnesses sample_abi.param_witnesses \
           sample_circuit.public_parameters.witnesses) :=
  ⟨by rfl,
   witness_partition ok_pipeline sample_program true false true
     sample_circuit (DebugInfo.new ()) sample_abi (by rfl)⟩

/-- C5: the two diagnostic flags (SSA-pass printing and Brillig-trace
printing) never alter compilation results: given that Brillig lowering
ignores its trace flag (its body is outside the orchestration file; the spec
requires the flag to "never alter compilation results"), two compilations
differing only in the diagnostic flags return identical outcomes, circuits,
debug info, and ABIs. -/
theorem diagnostic_flags_immaterial {Body Ssa Brillig Opcode LocTable Err : Type}
    (F : SsaPipeline Body Ssa Brillig Opcode LocTable Err Id)
    (program : Program Body) (show_output : Bool) (b1 b2 b1' b2' : Bool)
    (hbr : ∀ (s : Ssa) (x y : Bool), F.to_brillig s x = F.to_brillig s y) :
    create_circuit F program b1 b2 show_output =
      create_circuit F program b1' b2' show_output := by
  unfold create_circuit
  rw [optimize_into_acir_id F program show_output b1 b2,
      optimize_into_acir_id F program show_output b1' b2']
  simp only []
  rw [hbr (F.defunctionalize (F.generate_ssa program)) b2 b2']

/-- Concrete run of `diagnostic_flags_immaterial`: flipping both diagnostic
flags leaves the compiled result unchanged. -/
theorem diagnostic_flags_immaterial_concrete :
    (∀ (s : Unit) (x y : Bool), ok_pipeline.to_brillig s x = ok_pipeline.to_brillig s y) ∧
    create_circuit ok_pipeline sample_program true false true =
      create_circuit ok_pipeline sample_program false true true :=
  ⟨fun _ _ _ => rfl,
   diagnostic_flags_immaterial ok_pipeline sample_program true true false false true
     (fun _ _ _ => rfl)⟩

/-- C6: when ACIR generation fails, `create_circuit` returns that error and
emits no circuit record, debug info, or ABI (the `?` on `optimize_into_acir`
surfaces the first fatal condition and stops). -/
theorem acir_error_propagates {Body Ssa Brillig Opcode LocTable Err : Type}
    (F : SsaPipeline Body Ssa Brillig Opcode LocTable Err Id)
    (program : Program Body) (a b c : Bool) (e : Err)
    (h : optimize_into_acir F program c a b = Except.error e) :
    create_circuit F program a b c = Except.error e := by
  unfold create_circuit
  rw [h]

/-- Concrete run of `acir_error_propagates`: a failing ACIR lowering makes
`create_circuit` return exactly that error. -/
theorem acir_error_propagates_concrete :
    optimize_into_acir fail_pipeline sample_program true false true = Except.error () ∧
    create_circuit fail_pipeline sample_program false true true = Except.error () :=
  ⟨rfl, acir_error_propagates fail_pipeline sample_program false true true () rfl⟩

/-- C7: the circuit assembler copies the generated ACIR's current witness
index and opcode list unchanged into the circuit record, records exactly the
generated return witnesses (no index modified, renumbered, or dropped), and
derives the debug info 1:1 from the location table. -/
theorem assembler_preserves_generated_acir {Body Ssa Brillig Opcode LocTable Err : Type}
    (F : SsaPipeline Body Ssa Brillig Opcode LocTable Err Id)
    (program : Program Body) (a b c : Bool)
    (g : GeneratedAcir Opcode LocTable)
    (circ : Circuit Opcode) (di : DebugInfo LocTable) (abi : Abi)
    (hg : optimize_into_acir F program c a b = Except.ok g)
    (h : create_circuit F program a b c = Except.ok (circ, di, abi)) :
    circ.current_witness_index = g.current_witness_index ∧
    circ.opcodes = g.opcodes ∧
    (∀ w : Witness, w ∈ circ.return_values.witnesses ↔ w ∈ g.return_witnesses) ∧
    di = DebugInfo.new g.locations := by
  obtain ⟨g', hg', -, hcirc, hdi⟩ := create_circuit_ok F program a b c circ di abi h
  rw [hg] at hg'
  injection hg' with hgg
  subst hgg
  subst hcirc
  subst hdi
  exact ⟨rfl, rfl, fun w => List.mem_toFinset, rfl⟩

/-- Concrete run of `assembler_preserves_generated_acir` on `sample_acir`. -/
theorem assembler_preserves_generated_acir_concrete :
    optimize_into_acir ok_pipeline sample_program true true false = Except.ok sample_acir ∧
    create_circuit ok_pipeline sample_program true false true =
      Except.ok (sample_circuit, DebugInfo.new (), sample_abi) ∧
    (sample_circuit.current_witness_index = sample_acir.current_witness_index ∧
     sample_circuit.opcodes = sample_acir.opcodes ∧
     (∀ w : Witness, w ∈ sample_circuit.return_values.witnesses ↔
        w ∈ sample_acir.return_witnesses) ∧
     DebugInfo.new () = DebugInfo.new sample_acir.locations) :=
  ⟨rfl, rfl,
   assembler_preserves_generated_acir ok_pipeline sample_program true false true
     sample_acir sample_circuit (DebugInfo.new ()) sample_abi rfl rfl⟩

/-- C8: the ABI is derived exactly from the original main function's
signature — captured from the input program before any compilation stage runs
— together with the return witnesses produced by the ACIR generator. -/
theorem abi_from_original_signature {Body Ssa Brillig Opcode LocTable Err : Type}
    (F : SsaPipeline Body Ssa Brillig Opcode LocTable Err Id)
    (program : Program Body) (a b c : Bool)
    (g : GeneratedAcir Opcode LocTable)
    (circ : Circuit Opcode) (di : DebugInfo LocTable) (abi : Abi)
    (hg : optimize_into_acir F program c a b = Except.ok g)
    (h : create_circuit F program a b c = Except.ok (circ, di, abi)) :
    abi = gen_abi program.main_function_signature g.return_witnesses := by
  obtain ⟨g', hg', habi, -, -⟩ := create_circuit_ok F program a b c circ di abi h
  rw [hg] at hg'
  injection hg' with hgg
  subst hgg
  exact habi

/-- Concrete run of `abi_from_original_signature`. -/
theorem abi_from_original_signature_concrete :
    optimize_into_acir ok_pipeline sample_program true true false = Except.ok sample_acir ∧
    create_circuit ok_pipeline sample_program true false true =
      Except.ok (sample_circuit, DebugInfo.new (), sample_abi) ∧
    sample_abi =
      gen_abi sample_program.main_function_signature sample_acir.return_witnesses :=
  ⟨rfl, rfl,
   abi_from_original_signature ok_pipeline sample_program true false true
     sample_acir sample_circuit (DebugInfo.new ()) sample_abi rfl rfl⟩

/-- C9: compilation is deterministic: the pipeline is a pure function, so two
runs on equal inputs with equal flags produce equal outputs (the same circuit,
witness numbering, and opcode order on success, the same error otherwise). -/
theorem compilation_deterministic {Body Ssa Brillig Opcode LocTable Err : Type}
    (F : SsaPipeline Body Ssa Brillig Opcode LocTable Err Id)
    (p p' : Program Body) (a b c : Bool) (h : p = p') :
    create_circuit F p a b c = create_circuit F p' a b c := by
  rw [h]

/-- Concrete run of `compilation_deterministic`. -/
theorem compilation_deterministic_concrete :
    sample_program = sample_program ∧
    create_circuit ok_pipeline sample_program true false true =
      create_circuit ok_pipeline sample_program true false true :=
  ⟨rfl, compilation_deterministic ok_pipeline sample_program sample_program true false true rfl⟩

/-- C10: the circuit's `return_values` field, viewed as a set, equals the set
of return witnesses of the generated ACIR (duplicates collapsed), and — being
a `PublicInputs` value counted by `Circuit::public_inputs` — those return
witnesses are recorded as public inputs of the circuit. -/
theorem return_witnesses_recorded_public {Body Ssa Brillig Opcode LocTable Err : Type}
    (F : SsaPipeline Body Ssa Brillig Opcode LocTable Err Id)
    (program : Program Body) (a b c : Bool)
    (g : GeneratedAcir Opcode LocTable)
    (circ : Circuit Opcode) (di : DebugInfo LocTable) (abi : Abi)
    (hg : optimize_into_acir F program c a b = Except.ok g)
    (h : create_circuit F program a b c = Except.ok (circ, di, abi)) :
    circ.return_values = ⟨g.return_witnesses.toFinset⟩ ∧
    (∀ w : Witness, w ∈ circ.return_values.witnesses ↔ w ∈ g.return_witnesses) ∧
    circ.return_values.witnesses ⊆ circ.public_inputs := by
  obtain ⟨g', hg', -, hcirc, -⟩ := create_circuit_ok F program a b c circ di abi h
  rw [hg] at hg'
  injection hg' with hgg
  subst hgg
  subst hcirc
  exact ⟨rfl, fun w => List.mem_toFinset, Finset.subset_union_right⟩

/-- Concrete run of `return_witnesses_recorded_public`: the duplicated return
witness list [3, 4, 3] collapses to the set {3, 4}, all public. -/
theorem return_witnesses_recorded_public_concrete :
    optimize_into_acir ok_pipeline sample_program true true false = Except.ok sample_acir ∧
    create_circuit ok_pipeline sample_program true false true =
      Except.ok (sample_circuit, DebugInfo.new (), sample_abi) ∧
    (sample_circuit.return_values = ⟨sample_acir.return_witnesses.toFinset⟩ ∧
     (∀ w : Witness, w ∈ sample_circuit.return_values.witnesses ↔
        w ∈ sample_acir.return_witnesses) ∧
     sample_circuit.return_values.witnesses ⊆ sample_circuit.public_inputs) :=
  ⟨rfl, rfl,
   return_witnesses_recorded_public ok_pipeline sample_program true false true
     sample_acir sample_circuit (DebugInfo.new ()) sample_abi rfl rfl⟩
